import Mathlib

/-!
Shallow embedding of the gtest sharding driver (src/shrdr.py).

The program runs a gtest executable in N parallel shards (environment
variables GTEST_TOTAL_SHARDS / GTEST_SHARD_INDEX), optionally followed by a
single sequential shard for a user-given filter, aggregates pass/fail
results and exits with the number of failed shards.

Modelling choices:
  - Python strings are Lean String; Python truthiness of a string is the
    test s ≠ "".
  - The process environment is a map String → Option String.
  - A child process run is summarised by its exit status and combined
    stdout+stderr text (ChildOutcome); subprocess.check_output raising
    CalledProcessError corresponds to exitCode ≠ 0.
  - Writes to stdout/stderr are events (OutEvent); print adds a newline,
    print with empty end does not.
  - sys.stdout.isatty() is the boolean parameter isatty.
  - KeyboardInterrupt / OSError during a pool phase are modelled by a
    PhaseOutcome parameter feeding the try/except control flow of main_.
-/

/-- Python str.count applied to the two-character pattern colon-dash, the
gtest negative-filter separator (occurrences cannot overlap, so a left to
right non-overlapping scan counts every occurrence). -/
def countNegSep : List Char → Nat
  | ':' :: '-' :: rest => countNegSep rest + 1
  | _ :: rest => countNegSep rest
  | [] => 0

namespace Bcolors

/-- Bcolors.OKGREEN from shrdr.py, conditional on stdout being a tty. -/
def OKGREEN (isatty : Bool) : String := if isatty then "\x1b[92m" else ""

/-- Bcolors.FAIL from shrdr.py. -/
def FAIL (isatty : Bool) : String := if isatty then "\x1b[91m" else ""

/-- Bcolors.BOLD from shrdr.py. -/
def BOLD (isatty : Bool) : String := if isatty then "\x1b[1m" else ""

/-- Bcolors.ENDC from shrdr.py. -/
def ENDC (isatty : Bool) : String := if isatty then "\x1b[0m" else ""

end Bcolors

/-- The command-line options of shrdr.py that the core uses. -/
structure Options where
  jobs : Nat
  sequential : String
  verbosity : Int
deriving DecidableEq

/-- Which stream an output event goes to. -/
inductive StreamId
  | stdout
  | stderr
deriving DecidableEq

/-- One observable output action of the program. -/
inductive OutEvent
  | print (s : StreamId) (text : String)
  | flush (s : StreamId)
deriving DecidableEq

/-- Exit status and combined captured stdout+stderr of one child process. -/
structure ChildOutcome where
  exitCode : Nat
  output : String
deriving DecidableEq

/-- Lines 44-46 of work in shrdr.py: env = os.environ.copy() followed by
assigning GTEST_TOTAL_SHARDS := str(nshards) and
GTEST_SHARD_INDEX := str(shard). -/
def workEnv (baseEnv : String → Option String) (shard nshards : Nat) :
    String → Option String :=
  fun k =>
    if k = "GTEST_SHARD_INDEX" then some (toString shard)
    else if k = "GTEST_TOTAL_SHARDS" then some (toString nshards)
    else baseEnv k

/-- Lines 48-60 of work in shrdr.py: classify the child run and emit one
flushed progress glyph. On exit status 0 the result is (True, output) and a
green dot is printed and flushed; otherwise the result is (False, output)
and a red E is printed and flushed. -/
def work (isatty : Bool) (outcome : ChildOutcome) :
    (Bool × String) × List OutEvent :=
  if outcome.exitCode = 0 then
    ((true, outcome.output),
      [OutEvent.print .stdout
        (Bcolors.OKGREEN isatty ++ "." ++ Bcolors.ENDC isatty),
       OutEvent.flush .stdout])
  else
    ((false, outcome.output),
      [OutEvent.print .stdout
        (Bcolors.FAIL isatty ++ "E" ++ Bcolors.ENDC isatty),
       OutEvent.flush .stdout])

/-- Lines 70-83 of shrdr.py, options_gen: builds one (shard, nshards, argv)
triple per shard index in range(jobs). If stdout is a tty the color flag is
inserted after the executable; if the filter string is truthy (non-empty)
the gtest filter flag is appended. -/
def options_gen (jobs : Nat) (filter : String) (binary : List String)
    (isatty : Bool) : List (Nat × Nat × List String) :=
  let binary1 :=
    if isatty then binary.take 1 ++ ["--gtest_color=yes"] ++ binary.drop 1
    else binary
  let binary2 :=
    if filter ≠ "" then binary1 ++ ["--gtest_filter=" ++ filter]
    else binary1
  (List.range jobs).map (fun opt => (opt, jobs, binary2))

/-- Lines 89-92 of main_ in shrdr.py: the filter used for the parallel
phase. E is the inherited GTEST_FILTER environment variable (empty meaning
unset or empty, both falsy in Python), S is options.sequential. -/
def parallelFilter (E S : String) : String :=
  if E ≠ "" then E ++ ":-" ++ S else "*:-" ++ S

/-- The task list dispatched to the pool for the parallel phase
(lines 99-101 of shrdr.py). -/
def parallelTasks (E : String) (opts : Options) (binary : List String)
    (isatty : Bool) : List (Nat × Nat × List String) :=
  options_gen opts.jobs (parallelFilter E opts.sequential) binary isatty

/-- The task list dispatched for the sequential phase when it runs
(lines 104-109 of shrdr.py): options.filter := options.sequential and
options.jobs := 1 before calling options_gen again on the original binary. -/
def sequentialTasks (opts : Options) (binary : List String) (isatty : Bool) :
    List (Nat × Nat × List String) :=
  options_gen 1 opts.sequential binary isatty

/-- All shard invocations dispatched by main_ in order: the parallel phase
always, then the sequential phase exactly when options.sequential is truthy
(line 104 of shrdr.py). -/
def allTasks (E : String) (opts : Options) (binary : List String)
    (isatty : Bool) : List (Nat × Nat × List String) :=
  parallelTasks E opts binary isatty ++
    (if opts.sequential ≠ "" then sequentialTasks opts binary isatty else [])

/-- Line 111 of shrdr.py: the number of results whose first component is
falsy. -/
def nfailed (results : List (Bool × String)) : Nat :=
  (results.filter (fun r => !r.1)).length

/-- Lines 113-119 of shrdr.py: the per-shard re-emission loop. A failed
shard output goes to stderr when verbosity > 0, a succeeded shard output
goes to stdout when verbosity > 1. -/
def perShardEvents (verbosity : Int) (results : List (Bool × String)) :
    List OutEvent :=
  results.flatMap (fun r =>
    if !r.1 then
      if verbosity > 0 then [OutEvent.print .stderr (r.2 ++ "\n")] else []
    else
      if verbosity > 1 then [OutEvent.print .stdout (r.2 ++ "\n")] else [])

/-- Lines 121-127 of shrdr.py: the final banner, printed after a leading
newline; FAIL to stderr when nfailed is truthy, PASS to stdout otherwise. -/
def bannerEvent (isatty : Bool) (results : List (Bool × String)) : OutEvent :=
  if nfailed results ≠ 0 then
    OutEvent.print .stderr
      ("\n" ++ Bcolors.FAIL isatty ++ Bcolors.BOLD isatty ++ "[FAIL]" ++
        Bcolors.ENDC isatty ++ "\n")
  else
    OutEvent.print .stdout
      ("\n" ++ Bcolors.OKGREEN isatty ++ Bcolors.BOLD isatty ++ "[PASS]" ++
        Bcolors.ENDC isatty ++ "\n")

/-- The whole aggregation block of main_ (lines 111-127): per-shard
re-emission followed by the banner. -/
def aggregateEvents (isatty : Bool) (verbosity : Int)
    (results : List (Bool × String)) : List OutEvent :=
  perShardEvents verbosity results ++ [bannerEvent isatty results]

/-- The observable outcome of a full uninterrupted run of main_. -/
structure RunResult where
  tasks : List (Nat × Nat × List String)
  results : List (Bool × String)
  exitCode : Nat
  events : List OutEvent
deriving DecidableEq

/-- An uninterrupted run of main_ (lines 85-129 of shrdr.py): dispatch the
parallel tasks, then the sequential tasks when options.sequential is
non-empty, apply work to each child outcome, aggregate and exit with
nfailed. The behaviour of the test executable is the parameter childRun,
mapping (shard, nshards, argv) to the child exit status and output. -/
def mainRun (E : String) (opts : Options) (binary : List String)
    (isatty : Bool) (childRun : Nat → Nat → List String → ChildOutcome) :
    RunResult :=
  let tasks := allTasks E opts binary isatty
  let results := tasks.map (fun t => (work isatty (childRun t.1 t.2.1 t.2.2)).1)
  ⟨tasks, results, nfailed results, aggregateEvents isatty opts.verbosity results⟩

/-- How a pool phase of main_ ends: all results collected, or a
KeyboardInterrupt delivered mid-phase, or an OSError raised while
spawning. -/
inductive PhaseOutcome
  | completed (results : List (Bool × String))
  | interrupted
  | osError (msg : String)
deriving DecidableEq

/-- The observable outcome of main_ including its exception handlers:
the exit code passed to sys.exit, the aggregation-level output events, and
whether pool.terminate() was called. -/
structure CtrlResult where
  exitCode : Nat
  events : List OutEvent
  poolTerminated : Bool
deriving DecidableEq

/-- Line 135 of shrdr.py: the interrupt notice. -/
def interruptNotice : String := "Caught KeyboardInterrupt, terminating workers"

/-- The events emitted by the KeyboardInterrupt handler of main_
(lines 131-140): a bare newline to close the glyph line, then the notice,
both to stdout. -/
def interruptEvents : List OutEvent :=
  [OutEvent.print .stdout "\n",
   OutEvent.print .stdout (interruptNotice ++ "\n")]

/-- The events emitted by the OSError handler of main_ (lines 141-147). -/
def osErrorEvents (isatty : Bool) (msg : String) : List OutEvent :=
  [OutEvent.print .stdout
    ("\n" ++ Bcolors.FAIL isatty ++ "ERROR: " ++ msg ++
      Bcolors.ENDC isatty ++ "\n")]

/-- The try/except control flow of main_ (lines 85-147 of shrdr.py): the
parallel phase runs first; if it completes and options.sequential is
non-empty the sequential phase runs; if both relevant phases complete the
results are concatenated and aggregated and the process exits with nfailed;
a KeyboardInterrupt or OSError in either phase jumps to the handler, which
terminates the pool and exits 1, skipping aggregation entirely. -/
def mainCtrl (isatty : Bool) (opts : Options) (par seq : PhaseOutcome) :
    CtrlResult :=
  match par with
  | .interrupted => ⟨1, interruptEvents, true⟩
  | .osError msg => ⟨1, osErrorEvents isatty msg, true⟩
  | .completed rs1 =>
    if opts.sequential ≠ "" then
      match seq with
      | .interrupted => ⟨1, interruptEvents, true⟩
      | .osError msg => ⟨1, osErrorEvents isatty msg, true⟩
      | .completed rs2 =>
        ⟨nfailed (rs1 ++ rs2),
         aggregateEvents isatty opts.verbosity (rs1 ++ rs2), false⟩
    else
      ⟨nfailed rs1, aggregateEvents isatty opts.verbosity rs1, false⟩

/-- Outcome of the top-level entry block: either an early sys.exit during
argument and filter validation with its diagnostics, or a full run of
main_. -/
inductive TopOutcome
  | earlyExit (code : Nat) (events : List OutEvent)
  | run (result : RunResult)
deriving DecidableEq

/-- The shard invocations actually dispatched: none on an early validation
exit. -/
def TopOutcome.dispatched : TopOutcome → List (Nat × Nat × List String)
  | .earlyExit _ _ => []
  | .run r => r.tasks

/-- The exit code of the whole process. -/
def TopOutcome.exitCode : TopOutcome → Nat
  | .earlyExit c _ => c
  | .run r => r.exitCode

/-- The output events of the whole process. -/
def TopOutcome.events : TopOutcome → List OutEvent
  | .earlyExit _ evs => evs
  | .run r => r.events

/-- The usage string of the option parser (line 152 of shrdr.py). -/
def usageText : String := "Usage: %prog [options] <test> [-- <test_options>]"

/-- The validation chain of the entry block of shrdr.py (lines 171-206),
followed by main_. fileOk models os.path.isfile(binary[0]) and execOk
models os.access(binary[0], os.X_OK). The filter checks are exactly
lines 189-204: a truthy sequential option whose value contains the
negative-filter separator is rejected, and a truthy sequential option
together with a truthy GTEST_FILTER containing the separator is rejected;
each rejection prints to stderr and exits 1 before any worker is spawned. -/
def shrdrTop (E : String) (opts : Options) (binary : List String)
    (fileOk execOk isatty : Bool)
    (childRun : Nat → Nat → List String → ChildOutcome) : TopOutcome :=
  if binary = [] then
    .earlyExit 1 [OutEvent.print .stdout (usageText ++ "\n")]
  else if !fileOk then
    .earlyExit 1 [OutEvent.print .stderr
      (Bcolors.FAIL isatty ++ "ERROR: File \x27" ++ binary.headI ++
        "\x27 does not exists" ++ Bcolors.ENDC isatty ++ "\n")]
  else if !execOk then
    .earlyExit 1 [OutEvent.print .stderr
      (Bcolors.FAIL isatty ++ "ERROR: File \x27" ++ binary.headI ++
        "\x27 is not executable" ++ Bcolors.ENDC isatty ++ "\n")]
  else if opts.sequential ≠ "" ∧ countNegSep opts.sequential.data ≠ 0 then
    .earlyExit 1 [OutEvent.print .stderr
      (Bcolors.FAIL isatty ++
        "ERROR: Cannot use negative filters in \x27sequential\x27 parameter: " ++
        opts.sequential ++ Bcolors.ENDC isatty ++ "\n")]
  else if opts.sequential ≠ "" ∧ E ≠ "" ∧ countNegSep E.data ≠ 0 then
    .earlyExit 1 [OutEvent.print .stderr
      (Bcolors.FAIL isatty ++
        "ERROR: Cannot specify both \x27sequential\x27 option and environment " ++
        "variable \x27GTEST_FILTER\x27 containing negative filters" ++
        Bcolors.ENDC isatty ++ "\n")]
  else
    .run (mainRun E opts binary isatty childRun)

/-! Helper lemmas. -/

theorem string_ne_empty_iff (s : String) : s ≠ "" ↔ s.data ≠ [] :=
  not_congr String.ext_iff

theorem string_append_ne_empty_left (s t : String) (h : s ≠ "") :
    s ++ t ≠ "" := by
  rw [string_ne_empty_iff] at h ⊢
  rw [String.data_append]
  simp [h]

theorem countNegSep_cons_cons (a b : Char) (l : List Char) :
    countNegSep (a :: b :: l) =
      if a = ':' ∧ b = '-' then countNegSep l + 1 else countNegSep (b :: l) := by
  rw [countNegSep.eq_def]
  split
  · simp_all
  · split
    · rename_i hno heq h
      obtain ⟨rfl, rfl⟩ := h
      injection heq with h1 h2
      exact (hno l h1.symm h2.symm).elim
    · simp_all [countNegSep]
  · simp_all

theorem countNegSep_append_sep (l : List Char) :
    countNegSep (l ++ [':', '-']) = countNegSep l + 1 := by
  induction l using countNegSep.induct with
  | case1 rest ih => simpa [countNegSep_cons_cons] using ih
  | case2 a rest hne ih =>
    rcases rest with _ | ⟨b, rest'⟩
    · rw [List.cons_append, List.nil_append, countNegSep_cons_cons]
      simp [countNegSep, countNegSep_cons_cons]
    · have hab : ¬(a = ':' ∧ b = '-') := by
        rintro ⟨rfl, rfl⟩
        exact hne rest' rfl rfl
      rw [List.cons_append, List.cons_append, countNegSep_cons_cons, if_neg hab,
        countNegSep_cons_cons, if_neg hab]
      simpa using ih
  | case3 => rfl

theorem countNegSep_ne_zero_ne_empty (s : String) (h : countNegSep s.data ≠ 0) :
    s ≠ "" := by
  rw [string_ne_empty_iff]
  intro hd
  rw [hd] at h
  exact h rfl

theorem parallelFilter_ne_empty (E S : String) : parallelFilter E S ≠ "" := by
  unfold parallelFilter
  split
  · next h =>
    exact string_append_ne_empty_left _ _ (string_append_ne_empty_left _ _ h)
  · exact string_append_ne_empty_left _ _ (by decide)

theorem options_gen_of_filter_ne_empty (jobs : Nat) (f : String)
    (binary : List String) (isatty : Bool) (h : f ≠ "") :
    options_gen jobs f binary isatty
      = (List.range jobs).map (fun i => (i, jobs,
          (if isatty then binary.take 1 ++ ["--gtest_color=yes"] ++ binary.drop 1
           else binary) ++ ["--gtest_filter=" ++ f])) := by
  simp [options_gen, h]

theorem work_fst_fst (isatty : Bool) (o : ChildOutcome) :
    (work isatty o).1.1 = (o.exitCode == 0) := by
  unfold work
  split <;> simp_all

theorem work_fst_snd (isatty : Bool) (o : ChildOutcome) :
    (work isatty o).1.2 = o.output := by
  unfold work
  split <;> rfl

theorem workEnv_total (baseEnv : String → Option String) (shard nshards : Nat) :
    workEnv baseEnv shard nshards "GTEST_TOTAL_SHARDS"
      = some (toString nshards) := by
  unfold workEnv
  rw [if_neg (by decide), if_pos rfl]

theorem workEnv_index (baseEnv : String → Option String) (shard nshards : Nat) :
    workEnv baseEnv shard nshards "GTEST_SHARD_INDEX"
      = some (toString shard) := by
  unfold workEnv
  rw [if_pos rfl]

theorem workEnv_other (baseEnv : String → Option String) (shard nshards : Nat)
    (k : String) (h1 : k ≠ "GTEST_SHARD_INDEX") (h2 : k ≠ "GTEST_TOTAL_SHARDS") :
    workEnv baseEnv shard nshards k = baseEnv k := by
  unfold workEnv
  rw [if_neg h1, if_neg h2]

/-! Claim theorems. -/

/-- C1, counterexample: with the inherited GTEST_FILTER and the sequential
filter both empty, a one-job run on executable t still passes a gtest
filter argument to the child, with value the star-colon-dash string; the
claim that the filter flag is omitted when both are empty is false on the
code. -/
theorem c1_counterexample :
    parallelTasks "" ⟨1, "", 1⟩ ["t"] false
      = [(0, 1, ["t", "--gtest_filter=*:-"])] := by
  decide

/-- C1, amended: for every inherited filter E and sequential filter S the
parallel phase filter equals E:-S when E is non-empty and *:-S otherwise,
including when S is empty; that filter string is never empty, so the gtest
filter flag carrying it is appended to the argv of every parallel task —
in particular, when E and S are both empty the flag is passed with value
star-colon-dash rather than omitted. -/
theorem c1_parallel_filter_flag (E S : String) (jobs : Nat) (V : Int)
    (binary : List String) (isatty : Bool) :
    parallelTasks E ⟨jobs, S, V⟩ binary isatty
      = (List.range jobs).map (fun i => (i, jobs,
          (if isatty then binary.take 1 ++ ["--gtest_color=yes"] ++ binary.drop 1
           else binary)
            ++ ["--gtest_filter="
                ++ (if E = "" then "*:-" ++ S else E ++ ":-" ++ S)])) := by
  show options_gen jobs (parallelFilter E S) binary isatty = _
  rw [options_gen_of_filter_ne_empty _ _ _ _ (parallelFilter_ne_empty E S)]
  by_cases hE : E = "" <;> simp [parallelFilter, hE]

/-- C3: for every jobs value N at least 1, the parallel phase dispatches
exactly N invocations; the shard indices are exactly 0 through N-1 in
order (hence pairwise distinct and covering the range); every task carries
total shard count N; and for any base environment, each task's child
environment maps GTEST_TOTAL_SHARDS to the decimal string of N and
GTEST_SHARD_INDEX to the decimal string of its own shard index. -/
theorem c3_parallel_shards (E S : String) (jobs : Nat) (V : Int)
    (binary : List String) (isatty : Bool) (h : 1 ≤ jobs) :
    (parallelTasks E ⟨jobs, S, V⟩ binary isatty).length = jobs
    ∧ (parallelTasks E ⟨jobs, S, V⟩ binary isatty).map (fun t => t.1)
        = List.range jobs
    ∧ ∀ t ∈ parallelTasks E ⟨jobs, S, V⟩ binary isatty,
        t.2.1 = jobs
        ∧ ∀ baseEnv : String → Option String,
            workEnv baseEnv t.1 t.2.1 "GTEST_TOTAL_SHARDS"
              = some (toString jobs)
            ∧ workEnv baseEnv t.1 t.2.1 "GTEST_SHARD_INDEX"
              = some (toString t.1) := by
  refine ⟨by simp [parallelTasks, options_gen],
    by simp [parallelTasks, options_gen, Function.comp_def], ?_⟩
  intro t ht
  have h21 : t.2.1 = jobs := by
    simp only [parallelTasks, options_gen, List.mem_map, List.mem_range] at ht
    obtain ⟨i, _, rfl⟩ := ht
    rfl
  refine ⟨h21, fun baseEnv => ⟨?_, workEnv_index baseEnv t.1 t.2.1⟩⟩
  rw [workEnv_total, h21]

/-- C4: the sequential phase executes exactly when the sequential filter S
is non-empty; when S is empty the dispatched tasks are the parallel tasks
alone, and when S is non-empty exactly one further invocation follows, with
shard index 0, shard count 1 regardless of the jobs option, and the gtest
filter flag carrying exactly S. -/
theorem c4_sequential_phase (E S : String) (jobs : Nat) (V : Int)
    (binary : List String) (isatty : Bool) :
    (S = "" → allTasks E ⟨jobs, S, V⟩ binary isatty
        = parallelTasks E ⟨jobs, S, V⟩ binary isatty)
    ∧ (S ≠ "" → allTasks E ⟨jobs, S, V⟩ binary isatty
        = parallelTasks E ⟨jobs, S, V⟩ binary isatty
          ++ [(0, 1,
            (if isatty then binary.take 1 ++ ["--gtest_color=yes"] ++ binary.drop 1
             else binary) ++ ["--gtest_filter=" ++ S])]) := by
  constructor
  · intro hS
    simp [allTasks, hS]
  · intro hS
    unfold allTasks
    rw [if_pos hS]
    congr 1
    show sequentialTasks _ _ _ = _
    unfold sequentialTasks
    rw [options_gen_of_filter_ne_empty _ _ _ _ hS]
    simp [List.range_succ]

/-- C4, witness: with sequential filter Foo.*, two jobs and a non-tty
stdout, the dispatched tasks are the parallel tasks followed by exactly one
sequential invocation with shard count 1 and filter exactly Foo.*. -/
theorem c4_sequential_phase_witness :
    allTasks "" ⟨2, "Foo.*", 1⟩ ["t"] false
      = parallelTasks "" ⟨2, "Foo.*", 1⟩ ["t"] false
        ++ [(0, 1, ["t", "--gtest_filter=Foo.*"])] :=
  (c4_sequential_phase "" "Foo.*" 2 1 ["t"] false).2 (by decide)

/-- C8: the environment passed to a child equals the driver's environment
with exactly the two entries GTEST_TOTAL_SHARDS and GTEST_SHARD_INDEX
overridden by stringified integers; every other key is unchanged. -/
theorem c8_env_frame (baseEnv : String → Option String) (shard nshards : Nat) :
    workEnv baseEnv shard nshards "GTEST_TOTAL_SHARDS" = some (toString nshards)
    ∧ workEnv baseEnv shard nshards "GTEST_SHARD_INDEX" = some (toString shard)
    ∧ ∀ k, k ≠ "GTEST_TOTAL_SHARDS" → k ≠ "GTEST_SHARD_INDEX" →
        workEnv baseEnv shard nshards k = baseEnv k :=
  ⟨workEnv_total baseEnv shard nshards, workEnv_index baseEnv shard nshards,
    fun k h2 h1 => workEnv_other baseEnv shard nshards k h1 h2⟩

/-- C8, witness: for shard 2 of 5 over a one-entry base environment, the
two gtest variables are overridden and the unrelated key PATH is
unchanged. -/
theorem c8_env_frame_witness :
    workEnv (fun k => if k = "PATH" then some "/bin" else none) 2 5
        "GTEST_TOTAL_SHARDS" = some (toString 5)
    ∧ workEnv (fun k => if k = "PATH" then some "/bin" else none) 2 5
        "GTEST_SHARD_INDEX" = some (toString 2)
    ∧ workEnv (fun k => if k = "PATH" then some "/bin" else none) 2 5
        "PATH" = some "/bin" := by
  have h := c8_env_frame (fun k => if k = "PATH" then some "/bin" else none) 2 5
  exact ⟨h.1, h.2.1, (h.2.2 "PATH" (by decide) (by decide)).trans (by decide)⟩

/-- C3, witness: a three-job run dispatches three parallel invocations with
shard indices 0, 1, 2 and total shard count 3 in each child environment. -/
theorem c3_parallel_shards_witness :
    (parallelTasks "" ⟨3, "", 1⟩ ["t"] false).length = 3
    ∧ (parallelTasks "" ⟨3, "", 1⟩ ["t"] false).map (fun t => t.1)
        = List.range 3
    ∧ ∀ t ∈ parallelTasks "" ⟨3, "", 1⟩ ["t"] false,
        t.2.1 = 3
        ∧ ∀ baseEnv : String → Option String,
            workEnv baseEnv t.1 t.2.1 "GTEST_TOTAL_SHARDS"
              = some (toString 3)
            ∧ workEnv baseEnv t.1 t.2.1 "GTEST_SHARD_INDEX"
              = some (toString t.1) :=
  c3_parallel_shards "" "" 3 1 ["t"] false (by decide)

theorem nfailed_map_work (isatty : Bool)
    (childRun : Nat → Nat → List String → ChildOutcome)
    (tasks : List (Nat × Nat × List String)) :
    nfailed (tasks.map (fun t => (work isatty (childRun t.1 t.2.1 t.2.2)).1))
      = (tasks.filter
          (fun t => (childRun t.1 t.2.1 t.2.2).exitCode != 0)).length := by
  induction tasks with
  | nil => rfl
  | cons t ts ih =>
    simp only [List.map_cons, nfailed, List.filter_cons] at ih ⊢
    rw [work_fst_fst]
    by_cases h0 : (childRun t.1 t.2.1 t.2.2).exitCode = 0
    · simp [h0, ih]
    · simp [h0, ih]

/-- C2: the exit code of an uninterrupted run equals the number of shard
invocations, across both phases, whose child exited non-zero; in
particular it is 0 exactly when every dispatched shard invocation
succeeded. -/
theorem c2_exit_code (E : String) (opts : Options) (binary : List String)
    (isatty : Bool) (childRun : Nat → Nat → List String → ChildOutcome) :
    (mainRun E opts binary isatty childRun).exitCode
      = ((mainRun E opts binary isatty childRun).tasks.filter
          (fun t => (childRun t.1 t.2.1 t.2.2).exitCode != 0)).length
    ∧ ((mainRun E opts binary isatty childRun).exitCode = 0 ↔
        ∀ t ∈ (mainRun E opts binary isatty childRun).tasks,
          (childRun t.1 t.2.1 t.2.2).exitCode = 0) := by
  have h1 : (mainRun E opts binary isatty childRun).exitCode
      = ((allTasks E opts binary isatty).filter
          (fun t => (childRun t.1 t.2.1 t.2.2).exitCode != 0)).length :=
    nfailed_map_work isatty childRun (allTasks E opts binary isatty)
  have htasks : (mainRun E opts binary isatty childRun).tasks
      = allTasks E opts binary isatty := rfl
  refine ⟨by rw [htasks]; exact h1, ?_⟩
  rw [h1, htasks, List.length_eq_zero, List.filter_eq_nil_iff]
  constructor
  · intro hall t ht
    have := hall t ht
    simpa using this
  · intro hall t ht
    simp [hall t ht]

/-- C6: a worker reports success with the captured combined output exactly
when the child exits 0, and failure with the captured combined output
exactly when it exits non-zero; in each case it writes exactly one progress
glyph to stdout and immediately flushes — the green dot on success, the red
E on failure. -/
theorem c6_work (isatty : Bool) (o : ChildOutcome) :
    (o.exitCode = 0 →
      work isatty o = ((true, o.output),
        [OutEvent.print .stdout
          (Bcolors.OKGREEN isatty ++ "." ++ Bcolors.ENDC isatty),
         OutEvent.flush .stdout]))
    ∧ (o.exitCode ≠ 0 →
      work isatty o = ((false, o.output),
        [OutEvent.print .stdout
          (Bcolors.FAIL isatty ++ "E" ++ Bcolors.ENDC isatty),
         OutEvent.flush .stdout])) := by
  constructor
  · intro h
    simp [work, h]
  · intro h
    simp [work, h]

/-- C6, witness: a child exiting 0 with output ok yields a success result
with a flushed dot, and a child exiting 1 with output boom yields a failure
result with a flushed E. -/
theorem c6_work_witness :
    work false ⟨0, "ok"⟩ = ((true, "ok"),
      [OutEvent.print .stdout
        (Bcolors.OKGREEN false ++ "." ++ Bcolors.ENDC false),
       OutEvent.flush .stdout])
    ∧ work false ⟨1, "boom"⟩ = ((false, "boom"),
      [OutEvent.print .stdout
        (Bcolors.FAIL false ++ "E" ++ Bcolors.ENDC false),
       OutEvent.flush .stdout]) :=
  ⟨(c6_work false ⟨0, "ok"⟩).1 (by decide),
   (c6_work false ⟨1, "boom"⟩).2 (by decide)⟩

/-- C7: aggregation output. With verbosity 0 nothing per-shard is
re-emitted, the events being exactly the banner; with verbosity at least 1
every failed shard's captured output is printed to stderr; with verbosity
at least 2 additionally every succeeded shard's captured output is printed
to stdout; and the last event is always the banner — preceded by a leading
newline in its text — which is the PASS banner on stdout when the failed
count is 0 and the FAIL banner on stderr otherwise. -/
theorem c7_verbosity_banner (isatty : Bool) (V : Int)
    (results : List (Bool × String)) :
    (V = 0 → aggregateEvents isatty V results = [bannerEvent isatty results])
    ∧ (V ≥ 1 → ∀ r ∈ results, r.1 = false →
        OutEvent.print .stderr (r.2 ++ "\n") ∈ aggregateEvents isatty V results)
    ∧ (V ≥ 2 → ∀ r ∈ results, r.1 = true →
        OutEvent.print .stdout (r.2 ++ "\n") ∈ aggregateEvents isatty V results)
    ∧ (aggregateEvents isatty V results).getLast?
        = some (bannerEvent isatty results)
    ∧ (nfailed results = 0 →
        bannerEvent isatty results = OutEvent.print .stdout
          ("\n" ++ Bcolors.OKGREEN isatty ++ Bcolors.BOLD isatty ++ "[PASS]"
            ++ Bcolors.ENDC isatty ++ "\n"))
    ∧ (nfailed results ≠ 0 →
        bannerEvent isatty results = OutEvent.print .stderr
          ("\n" ++ Bcolors.FAIL isatty ++ Bcolors.BOLD isatty ++ "[FAIL]"
            ++ Bcolors.ENDC isatty ++ "\n")) := by
  refine ⟨?_, ?_, ?_, ?_, ?_, ?_⟩
  · intro hV
    subst hV
    simp [aggregateEvents, perShardEvents]
  · intro hV r hr hfail
    apply List.mem_append_left
    refine List.mem_flatMap.mpr ⟨r, hr, ?_⟩
    have : (0 : Int) < V := by omega
    simp [hfail, this]
  · intro hV r hr hsucc
    apply List.mem_append_left
    refine List.mem_flatMap.mpr ⟨r, hr, ?_⟩
    have : (1 : Int) < V := by omega
    simp [hsucc, this]
  · exact List.getLast?_concat _
  · intro h0
    unfold bannerEvent
    rw [if_neg (by omega)]
  · intro h0
    unfold bannerEvent
    rw [if_pos h0]

/-- C7, witness: at verbosity 1 with one failed shard whose output is boom,
the failed output is re-emitted to stderr. -/
theorem c7_verbosity_banner_witness :
    OutEvent.print .stderr ("boom" ++ "\n")
      ∈ aggregateEvents false 1 [(false, "boom")] :=
  (c7_verbosity_banner false 1 [(false, "boom")]).2.1 (by decide)
    (false, "boom") (by decide) rfl

/-- C5: when the sequential filter S contains the negative-filter
separator, or S is non-empty and the inherited GTEST_FILTER contains the
separator, the process exits with code 1, prints an error line to stderr,
and dispatches zero shard invocations — whatever the state of the
executable checks that precede the filter checks. -/
theorem c5_filter_validation (E S : String) (jobs : Nat) (V : Int)
    (binary : List String) (fileOk execOk isatty : Bool)
    (childRun : Nat → Nat → List String → ChildOutcome)
    (hbin : binary ≠ [])
    (h : countNegSep S.data ≠ 0 ∨ (S ≠ "" ∧ countNegSep E.data ≠ 0)) :
    (shrdrTop E ⟨jobs, S, V⟩ binary fileOk execOk isatty childRun).dispatched
        = []
    ∧ (shrdrTop E ⟨jobs, S, V⟩ binary fileOk execOk isatty childRun).exitCode
        = 1
    ∧ ∃ msg, OutEvent.print .stderr msg
        ∈ (shrdrTop E ⟨jobs, S, V⟩ binary fileOk execOk isatty childRun).events := by
  unfold shrdrTop
  rw [if_neg hbin]
  cases fileOk with
  | false =>
    simp [TopOutcome.dispatched, TopOutcome.exitCode, TopOutcome.events]
  | true =>
    cases execOk with
    | false =>
      simp [TopOutcome.dispatched, TopOutcome.exitCode, TopOutcome.events]
    | true =>
      have hS : S ≠ "" := by
        rcases h with hc | ⟨hS, _⟩
        · exact countNegSep_ne_zero_ne_empty S hc
        · exact hS
      by_cases hc1 : countNegSep S.data ≠ 0
      · rw [if_neg (by simp), if_neg (by simp), if_pos ⟨hS, hc1⟩]
        simp [TopOutcome.dispatched, TopOutcome.exitCode, TopOutcome.events]
      · have hE : countNegSep E.data ≠ 0 := by
          rcases h with hc | ⟨_, hE⟩
          · exact absurd hc hc1
          · exact hE
        rw [if_neg (by simp), if_neg (by simp),
          if_neg (fun hand => hc1 hand.2),
          if_pos ⟨hS, countNegSep_ne_zero_ne_empty E hE, hE⟩]
        simp [TopOutcome.dispatched, TopOutcome.exitCode, TopOutcome.events]

/-- C5, witness: a sequential filter consisting of the separator itself is
rejected with exit code 1, a stderr diagnostic and no dispatched shard. -/
theorem c5_filter_validation_witness :
    (shrdrTop "" ⟨2, ":-", 1⟩ ["t"] true true false
        (fun _ _ _ => ⟨0, ""⟩)).dispatched = []
    ∧ (shrdrTop "" ⟨2, ":-", 1⟩ ["t"] true true false
        (fun _ _ _ => ⟨0, ""⟩)).exitCode = 1
    ∧ ∃ msg, OutEvent.print .stderr msg
        ∈ (shrdrTop "" ⟨2, ":-", 1⟩ ["t"] true true false
            (fun _ _ _ => ⟨0, ""⟩)).events :=
  c5_filter_validation "" ":-" 2 1 ["t"] true true false
    (fun _ _ _ => ⟨0, ""⟩) (by decide) (Or.inl (by decide))

/-- C9: if a KeyboardInterrupt arrives during the parallel phase, or during
the sequential phase when one runs, main_ terminates the worker pool, exits
with code 1, and its output is exactly the newline plus the interrupt
notice — so no PASS or FAIL banner is printed and no in-flight result is
aggregated. -/
theorem c9_interrupt (isatty : Bool) (opts : Options) (par seq : PhaseOutcome)
    (h : par = .interrupted
      ∨ (opts.sequential ≠ "" ∧ seq = .interrupted
          ∧ ∃ rs, par = .completed rs)) :
    (mainCtrl isatty opts par seq).exitCode = 1
    ∧ (mainCtrl isatty opts par seq).poolTerminated = true
    ∧ (mainCtrl isatty opts par seq).events = interruptEvents
    ∧ ∀ rs, bannerEvent isatty rs ∉ (mainCtrl isatty opts par seq).events := by
  have hev : mainCtrl isatty opts par seq = ⟨1, interruptEvents, true⟩ := by
    rcases h with rfl | ⟨hS, hseq, rs, rfl⟩
    · rfl
    · subst hseq
      show (if opts.sequential ≠ "" then
              (⟨1, interruptEvents, true⟩ : CtrlResult)
            else ⟨nfailed rs, aggregateEvents isatty opts.verbosity rs, false⟩)
          = _
      rw [if_pos hS]
  rw [hev]
  refine ⟨rfl, rfl, rfl, ?_⟩
  intro rs
  show bannerEvent isatty rs ∉ interruptEvents
  unfold bannerEvent interruptEvents interruptNotice
  cases isatty <;> split <;> decide

/-- C9, witness: an interrupt during the parallel phase of a two-job run
gives exit code 1, a terminated pool, exactly the interrupt events, and no
banner for any result list. -/
theorem c9_interrupt_witness :
    (mainCtrl false ⟨2, "", 1⟩ .interrupted (.completed [])).exitCode = 1
    ∧ (mainCtrl false ⟨2, "", 1⟩ .interrupted
        (.completed [])).poolTerminated = true
    ∧ (mainCtrl false ⟨2, "", 1⟩ .interrupted (.completed [])).events
        = interruptEvents
    ∧ ∀ rs, bannerEvent false rs
        ∉ (mainCtrl false ⟨2, "", 1⟩ .interrupted (.completed [])).events :=
  c9_interrupt false ⟨2, "", 1⟩ .interrupted (.completed []) (Or.inl rfl)

/-- C10: with an empty sequential filter, an inherited GTEST_FILTER that
contains the negative-filter separator passes validation — the run reaches
main_ — and the parallel filter is that inherited expression with the
separator appended, containing exactly one more separator occurrence than
the inherited expression, hence at least two. -/
theorem c10_inherited_negative_accepted (E : String) (jobs : Nat) (V : Int)
    (binary : List String) (isatty : Bool)
    (childRun : Nat → Nat → List String → ChildOutcome)
    (hbin : binary ≠ []) (hE : countNegSep E.data ≠ 0) :
    shrdrTop E ⟨jobs, "", V⟩ binary true true isatty childRun
      = .run (mainRun E ⟨jobs, "", V⟩ binary isatty childRun)
    ∧ parallelFilter E "" = E ++ ":-"
    ∧ countNegSep (parallelFilter E "").data = countNegSep E.data + 1
    ∧ 2 ≤ countNegSep (parallelFilter E "").data := by
  have hEne : E ≠ "" := countNegSep_ne_zero_ne_empty E hE
  have hpf : parallelFilter E "" = E ++ ":-" := by
    unfold parallelFilter
    rw [if_pos hEne, String.append_empty]
  have hcount : countNegSep (parallelFilter E "").data
      = countNegSep E.data + 1 := by
    rw [hpf, String.data_append]
    exact countNegSep_append_sep E.data
  refine ⟨?_, hpf, hcount, by omega⟩
  unfold shrdrTop
  rw [if_neg hbin, if_neg (by decide), if_neg (by decide),
    if_neg (fun hand => hand.1 rfl), if_neg (fun hand => hand.1 rfl)]

/-- C10, witness: the inherited filter a:-b with an empty sequential filter
reaches main_ and yields the parallel filter a:-b:- with two separator
occurrences. -/
theorem c10_inherited_negative_accepted_witness :
    shrdrTop "a:-b" ⟨2, "", 1⟩ ["t"] true true false (fun _ _ _ => ⟨0, ""⟩)
      = .run (mainRun "a:-b" ⟨2, "", 1⟩ ["t"] false (fun _ _ _ => ⟨0, ""⟩))
    ∧ parallelFilter "a:-b" "" = "a:-b" ++ ":-"
    ∧ countNegSep (parallelFilter "a:-b" "").data
        = countNegSep ("a:-b").data + 1
    ∧ 2 ≤ countNegSep (parallelFilter "a:-b" "").data :=
  c10_inherited_negative_accepted "a:-b" 2 1 ["t"] false
    (fun _ _ _ => ⟨0, ""⟩) (by decide) (by decide)
